import Mathlib

/-!
Verification development for the Telegram userbot command core
(files `handlers.py` and `utils.py` of the repository): a shallow
embedding of the single-flight command state machine, the interruptible
randomized delay, the command handlers and the two bulk executors,
together with proofs of the specified properties.

Modelling conventions:
* The mutable fields of the `BotHandlers` instance form the structure
  `BotState`; a handler is a pure function from a state (plus the inbound
  event and the environment) to a new state and the ordered list of
  outbound `Effect`s it performed (deleting the triggering message,
  sending messages).
* `stop_command` may be flipped concurrently by the stop handler while an
  executor runs, so each read of the flag inside an executor is modelled
  as a sample of a Boolean oracle indexed by the read site.
* Python floats are modelled as exact rationals; the value drawn by
  `random.uniform(min_delay, max_delay)` is an explicit parameter,
  constrained in theorems by `min_delay ≤ drawn ∧ drawn ≤ max_delay`.
* Exceptions raised by network calls are modelled by Boolean/`Except`
  oracles selecting exactly the `except` branches present in the source.
* Python string truthiness (`if s:` on an optional string) is
  `strTruthy`; the substring test
  `"{mention}" in s`, `str.replace` and `str.strip` are
  `strContains`/`strReplace`/`strStrip`, implemented over `List Char` so
  that they evaluate by `decide`.
-/

namespace Userbot

/-- The two values taken by `active_command_type` in `handlers.py`
(`'tagging'` and `'spam'`). -/
inductive CommandType
  | tagging
  | spam
deriving DecidableEq, Repr

/-- The mutable per-instance fields of `BotHandlers` (handlers.py, `__init__`):
`is_command_active`, `stop_command`, `active_command_type`, `current_task`
(modelled as presence of a task handle) and the configuration flag
`allow_parallel_commands`. -/
structure BotState where
  is_command_active : Bool
  stop_command : Bool
  active_command_type : Option CommandType
  current_task : Option Unit
  allow_parallel_commands : Bool
deriving DecidableEq, Repr

/-- Observable outbound actions of a handler or executor, in execution
order: deleting the triggering command message, or sending a message
(`send_message(chat_id, text, reply_to=...)`; `reply_to = none` is a
normal, non-reply message). -/
inductive Effect
  | deleteMessage
  | sendMessage (chat : Int) (text : String) (reply_to : Option Nat)
deriving DecidableEq, Repr

/-- A group participant as consumed by `execute_tagging` / `handle_stats`:
opaque id, optional username, optional first name, and the three filter
flags. -/
structure User where
  id : Int
  username : Option String
  first_name : Option String
  bot : Bool
  deleted : Bool
  is_self : Bool
deriving DecidableEq, Repr

/-- Python truthiness of an optional string: `None` and `""` are falsy. -/
def strTruthy : Option String → Bool
  | some s => s != ""
  | none => false

/-- Substring test on character lists (Python `pat in s`); an empty
pattern is contained in every string. -/
def charsContain (pat : List Char) : List Char → Bool
  | [] => pat.isEmpty
  | c :: rest => pat.isPrefixOf (c :: rest) || charsContain pat rest

/-- Python `pat in s`. -/
def strContains (s pat : String) : Bool :=
  charsContain pat.toList s.toList

/-- Left-to-right non-overlapping replacement of every occurrence of
`pat` (Python `str.replace`); `fuel` bounds the recursion and is
initialised to the length of the subject, which suffices since every
step consumes at least one character. -/
def charsReplace (pat rep : List Char) : Nat → List Char → List Char
  | _, [] => []
  | 0, l => l
  | fuel + 1, c :: rest =>
    if pat.isPrefixOf (c :: rest) && !pat.isEmpty then
      rep ++ charsReplace pat rep fuel ((c :: rest).drop pat.length)
    else
      c :: charsReplace pat rep fuel rest

/-- Python `s.replace(pat, rep)`. -/
def strReplace (s pat rep : String) : String :=
  String.mk (charsReplace pat.toList rep.toList s.toList.length s.toList)

/-- Python `s.strip()`: remove leading and trailing whitespace. -/
def strStrip (s : String) : String :=
  String.mk (((s.toList.dropWhile Char.isWhitespace).reverse.dropWhile
    Char.isWhitespace).reverse)

/-- utils.py `is_admin(user_id, admin_ids, bot_id)`: true iff the user is
in the admin list or is the bot itself. -/
def is_admin (user_id : Int) (admin_ids : List Int) (bot_id : Option Int) : Bool :=
  admin_ids.contains user_id ||
    (match bot_id with
     | some b => user_id == b
     | none => false)

/-- handlers.py `is_command_running(command_type)`: the admission check
consulted by `handle_tagall` and `handle_spam` (both call it with
`command_type = None`, i.e. `none`). -/
def is_command_running (st : BotState) (command_type : Option CommandType) : Bool :=
  if !st.is_command_active then false
  else if !st.allow_parallel_commands && command_type.isSome
          && st.active_command_type != command_type then false
  else if !st.allow_parallel_commands then true
  else false

/-- handlers.py `reset_command_state`: in non-parallel mode clears all
four command-state fields; in parallel mode it does nothing. -/
def reset_command_state (st : BotState) : BotState :=
  if !st.allow_parallel_commands then
    { st with
      is_command_active := false
      stop_command := false
      active_command_type := none
      current_task := none }
  else st

/-! ## utils.py `random_delay`

The loop
```
cooldown = random.uniform(min_delay, max_delay)
wait_time = 0
while wait_time < cooldown:
    if stop_flag and stop_flag(): return False
    await asyncio.sleep(0.1)
    wait_time += 0.1
return True
```
runs its body exactly `numIncrements cooldown` times when uninterrupted:
after `k` sleeps `wait_time = k/10`, and the loop continues while
`k/10 < cooldown`, i.e. for `k < ⌈10·cooldown⌉`.  The value of the stop
flag at the `k`-th poll is `f k`; `stop_flag = none` models passing no
predicate (the poll is skipped by short-circuit).  Besides the Boolean
result we record how many sleep increments and how many predicate
evaluations were performed. -/

/-- Number of iterations of the `random_delay` while-loop for a drawn
duration `cooldown` (in seconds): the least `k` with `k/10 ≥ cooldown`. -/
def numIncrements (cooldown : ℚ) : Nat :=
  (Int.ceil (cooldown * 10)).toNat

/-- Outcome of one `random_delay` call: the returned Boolean, the number
of 0.1 s sleep increments performed, and the number of times the cancel
predicate was evaluated. -/
structure DelayRun where
  result : Bool
  sleeps : Nat
  polls : Nat
deriving DecidableEq, Repr

/-- The `random_delay` while-loop: `n` iterations remain, the next poll
is the `k`-th. -/
def random_delayLoop (stop_flag : Option (Nat → Bool)) : Nat → Nat → DelayRun
  | 0, _ => ⟨true, 0, 0⟩
  | n + 1, k =>
    match stop_flag with
    | some f =>
      if f k then ⟨false, 0, 1⟩
      else
        let r := random_delayLoop (some f) n (k + 1)
        ⟨r.result, r.sleeps + 1, r.polls + 1⟩
    | none =>
      let r := random_delayLoop none n (k + 1)
      ⟨r.result, r.sleeps + 1, r.polls⟩

set_option linter.unusedVariables false in
/-- utils.py `random_delay(min_delay, max_delay, stop_flag)` with the
drawn duration made explicit.  `min_delay` and `max_delay` only influence
the run through the draw `cooldown ∈ [min_delay, max_delay]`. -/
def random_delay (min_delay max_delay cooldown : ℚ)
    (stop_flag : Option (Nat → Bool)) : DelayRun :=
  random_delayLoop stop_flag (numIncrements cooldown) 0

/-! ## execute_tagging: mention and message construction (handlers.py 262-309)

The per-target message body built by `execute_tagging`: the mention, and
the five-way case split on (reply text containing `{mention}`, replying,
command text present). -/

/-- The mention built for one user (handlers.py 263-269): `@username` when
the user has a (truthy) username, otherwise
`[name](tg://user?id=<id>)` with `name = first_name or "User"`. -/
def mention_of (user : User) : String :=
  if strTruthy user.username then "@" ++ user.username.getD ""
  else
    let name := if strTruthy user.first_name then user.first_name.getD "" else "User"
    "[" ++ name ++ "](tg://user?id=" ++ toString user.id ++ ")"

/-- One outgoing tag message: its text and the `reply_to` argument passed
to `send_message` (`none` = normal message). -/
structure TagSend where
  text : String
  reply_to : Option Nat
deriving DecidableEq, Repr

/-- The five-case message construction of `execute_tagging`
(handlers.py 271-309), translated branch for branch:
1. `reply_message` truthy and containing `{mention}` → all occurrences
   replaced, sent as a normal message;
2. replying with command text → `text\nmention`, sent as a reply
   (`reply_to = reply_msg.id if reply_msg else None`);
3. replying without command text → the mention, sent as a reply;
4. not replying, with command text → `text\nmention`, normal message;
5. otherwise the mention alone, normal message. -/
def buildTagSend (is_reply : Bool) (command_text : String)
    (reply_message : Option String) (reply_msg_id : Option Nat) (user : User) :
    TagSend :=
  let mention := mention_of user
  if strTruthy reply_message && strContains (reply_message.getD "") "{mention}" then
    ⟨strReplace (reply_message.getD "") "{mention}" mention, none⟩
  else if is_reply && command_text != "" then
    ⟨command_text ++ "\n" ++ mention, reply_msg_id⟩
  else if is_reply then
    ⟨mention, reply_msg_id⟩
  else if command_text != "" then
    ⟨command_text ++ "\n" ++ mention, none⟩
  else
    ⟨mention, none⟩

/-- Modelled from the spec (claim C6 / spec §4.3): the documented
five-case body selection, written from the claim's words — mention is
`@username` when the target has a username, otherwise
`[name](tg://user?id=<id>)` with `name` defaulting to `"User"`; cases in
priority order (a) reply text contains `{mention}` → replace every
occurrence, (b) reply with argument → `argument\nmention` as a reply,
(c) reply without argument → mention as a reply, (d) argument without
reply → `argument\nmention` normal, (e) mention alone, normal. -/
def claimTagSend (is_reply : Bool) (command_text : String)
    (reply_message : Option String) (reply_msg_id : Option Nat) (user : User) :
    TagSend :=
  let mention :=
    match user.username with
    | some u => "@" ++ u
    | none => "[" ++ user.first_name.getD "User" ++ "](tg://user?id=" ++ toString user.id ++ ")"
  let replyText := reply_message.getD ""
  if is_reply && strContains replyText "{mention}" then
    ⟨strReplace replyText "{mention}" mention, none⟩
  else if is_reply && command_text != "" then
    ⟨command_text ++ "\n" ++ mention, reply_msg_id⟩
  else if is_reply then
    ⟨mention, reply_msg_id⟩
  else if command_text != "" then
    ⟨command_text ++ "\n" ++ mention, none⟩
  else
    ⟨mention, none⟩

/-! ## Executors (handlers.py `execute_tagging` 205-342, `execute_spam` 435-492)

The executors run concurrently with the stop handler, so every read of
`self.stop_command` is a sample of an oracle; likewise each
`random_delay` call's outcome (`pacerOk`), each send's possible failure
(`sendFail`), an unexpected exception at the top of a loop iteration
(`crash`), and the possible failure of participant enumeration. -/

/-- Environment of one `execute_tagging` run: the participant stream the
client yields (in order), whether the enumeration raises after the
stream, and the oracles for stop-flag reads, send failures, pacer
outcomes and unexpected in-loop exceptions. -/
structure ExecEnv where
  participants : List User
  enumFails : Bool
  stopEnum : Nat → Bool
  stopLoop : Nat → Bool
  sendFail : Nat → Bool
  pacerOk : Nat → Bool
  crash : Nat → Bool

/-- The participant-enumeration phase (handlers.py 209-237): each yielded
user is preceded by a stop-flag check (abort → the executor returns),
bots / deleted accounts / self are filtered out, and an enumeration error
(caught `except`) also makes the executor return (`none`). -/
def collectGo (env : ExecEnv) : List User → Nat → Option (List User)
  | [], _ => if env.enumFails then none else some []
  | u :: rest, k =>
    if env.stopEnum k then none
    else
      match collectGo env rest (k + 1) with
      | none => none
      | some l => some (if u.bot || u.deleted || u.is_self then l else u :: l)

/-- The filtered participant list, or `none` when the run aborts during
enumeration (stop flag observed or enumeration error). -/
def collectParticipants (env : ExecEnv) : Option (List User) :=
  collectGo env env.participants 0

/-- The per-target loop of `execute_tagging` (handlers.py 253-333),
returning the sends performed and the number of `random_delay`
invocations.  Per iteration `i`: unexpected exception (`crash`, propagates
out of the loop into the outer `except`), stop-flag check, then the
`try` body: send (a failure is logged and `continue`s, skipping the
pacer), then the pacer; a pacer result of `False` ends the run. -/
def tagLoop (env : ExecEnv) (chat : Int) (is_reply : Bool) (command_text : String)
    (reply_message : Option String) (reply_msg_id : Option Nat) :
    List User → Nat → List Effect × Nat
  | [], _ => ([], 0)
  | u :: rest, i =>
    if env.crash i then ([], 0)
    else if env.stopLoop i then ([], 0)
    else if env.sendFail i then
      tagLoop env chat is_reply command_text reply_message reply_msg_id rest (i + 1)
    else
      let s := buildTagSend is_reply command_text reply_message reply_msg_id u
      let e := Effect.sendMessage chat s.text s.reply_to
      if env.pacerOk i then
        let r := tagLoop env chat is_reply command_text reply_message reply_msg_id rest (i + 1)
        (e :: r.1, r.2 + 1)
      else
        ([e], 1)

/-- Result of a handler or executor run: the final `BotState`, the
ordered effects, and how many pacer (`random_delay`) waits occurred. -/
structure RunResult where
  state : BotState
  effects : List Effect
  pacerCalls : Nat
deriving DecidableEq, Repr

/-- handlers.py `execute_tagging`: enumeration phase, empty-participant
early return, the tagging loop, and — in a `finally` — the unconditional
`reset_command_state()`, whichever branch terminated the run. -/
def execute_tagging (env : ExecEnv) (chat : Int) (is_reply : Bool)
    (command_text : String) (reply_message : Option String)
    (reply_msg_id : Option Nat) (st : BotState) : RunResult :=
  let body : List Effect × Nat :=
    match collectParticipants env with
    | none => ([], 0)
    | some participants =>
      if participants.isEmpty then ([], 0)
      else tagLoop env chat is_reply command_text reply_message reply_msg_id participants 0
  ⟨reset_command_state st, body.1, body.2⟩

/-- Environment of one `execute_spam` run: oracles for stop-flag reads,
send failures, pacer outcomes and unexpected in-loop exceptions. -/
structure SpamEnv where
  stopLoop : Nat → Bool
  sendFail : Nat → Bool
  pacerOk : Nat → Bool
  crash : Nat → Bool

/-- The `for i in range(count)` loop of `execute_spam`
(handlers.py 445-483): same skeleton as `tagLoop`, the sent text being
the constant `text` (as a reply to `reply_to` when the invoking command
replied to a message). -/
def spamLoop (env : SpamEnv) (chat : Int) (text : String) (reply_to : Option Nat) :
    Nat → Nat → List Effect × Nat
  | 0, _ => ([], 0)
  | n + 1, i =>
    if env.crash i then ([], 0)
    else if env.stopLoop i then ([], 0)
    else if env.sendFail i then
      spamLoop env chat text reply_to n (i + 1)
    else
      let e := Effect.sendMessage chat text reply_to
      if env.pacerOk i then
        let r := spamLoop env chat text reply_to n (i + 1)
        (e :: r.1, r.2 + 1)
      else
        ([e], 1)

/-- handlers.py `execute_spam`: the loop and — in a `finally` — the
unconditional `reset_command_state()`. -/
def execute_spam (env : SpamEnv) (chat : Int) (count : Nat) (text : String)
    (reply_to : Option Nat) (st : BotState) : RunResult :=
  let body := spamLoop env chat text reply_to count 0
  ⟨reset_command_state st, body.1, body.2⟩

/-! ## Command handlers (handlers.py 73-114, 132-203, 344-433, 494-510) -/

/-- The fields of an inbound event consumed by the basic handlers. -/
structure BasicEvent where
  sender_id : Int
  chat_id : Int
deriving DecidableEq, Repr

/-- handlers.py `handle_ping`: deletes the command message iff the sender
passes `is_admin`; no other observable effect (logging only). -/
def handle_ping (admin_ids : List Int) (bot_id : Option Int)
    (st : BotState) (ev : BasicEvent) : BotState × List Effect :=
  if is_admin ev.sender_id admin_ids bot_id then (st, [Effect.deleteMessage])
  else (st, [])

/-- handlers.py `handle_id`: same observable shape as `handle_ping`. -/
def handle_id (admin_ids : List Int) (bot_id : Option Int)
    (st : BotState) (ev : BasicEvent) : BotState × List Effect :=
  if is_admin ev.sender_id admin_ids bot_id then (st, [Effect.deleteMessage])
  else (st, [])

/-- handlers.py `handle_stats`: returns (no delete) for non-admins;
otherwise deletes the command message and iterates participants purely
for logging (no sends, exceptions caught). -/
def handle_stats (admin_ids : List Int) (bot_id : Option Int)
    (st : BotState) (ev : BasicEvent) : BotState × List Effect :=
  if !is_admin ev.sender_id admin_ids bot_id then (st, [])
  else (st, [Effect.deleteMessage])

/-- handlers.py `handle_stop_command` (shared by `/stoptag` and
`/stopspam`, which dispatch to the same handler and ignore which alias
matched): non-admin → delete only; no active command → delete only;
otherwise set `stop_command` and delete. -/
def handle_stop_command (admin_ids : List Int) (bot_id : Option Int)
    (st : BotState) (ev : BasicEvent) : BotState × List Effect :=
  if !is_admin ev.sender_id admin_ids bot_id then (st, [Effect.deleteMessage])
  else if !st.is_command_active then (st, [Effect.deleteMessage])
  else ({ st with stop_command := true }, [Effect.deleteMessage])

/-- An inbound `/tagall` event: sender, chat, group flag, reply flag, the
regex capture `group(1)` (the free text, `none` when absent) and the
outcome of `get_reply_message()` — raising, returning nothing, or
returning a message (its id and `text or raw_text or ""`). -/
structure TagallEvent where
  sender_id : Int
  chat_id : Int
  is_group : Bool
  is_reply : Bool
  group1 : Option String
  reply_fetch : Except Unit (Option (Nat × String))

/-- handlers.py `handle_tagall` (132-203): admin check, group check,
admission check (`is_command_running()` with no argument), delete, mark
active (`is_command_active := true`, `stop_command := false`,
`active_command_type := 'tagging'`), strip the argument, fetch the
replied-to message, run `execute_tagging` as the current task, and in a
`finally` reset the command state. -/
def handle_tagall (admin_ids : List Int) (bot_id : Option Int)
    (st : BotState) (ev : TagallEvent) (env : ExecEnv) : RunResult :=
  if !is_admin ev.sender_id admin_ids bot_id then ⟨st, [Effect.deleteMessage], 0⟩
  else if !ev.is_group then ⟨st, [Effect.deleteMessage], 0⟩
  else if !st.allow_parallel_commands && is_command_running st none then
    ⟨st, [Effect.deleteMessage], 0⟩
  else
    let command_text := strStrip (ev.group1.getD "")
    let st1 : BotState :=
      { st with
        is_command_active := true
        stop_command := false
        active_command_type := some CommandType.tagging
        current_task := some () }
    let rp : Option String × Option Nat :=
      if ev.is_reply then
        match ev.reply_fetch with
        | Except.error _ => (none, none)
        | Except.ok none => (none, none)
        | Except.ok (some (mid, mtext)) => (some mtext, some mid)
      else (none, none)
    let run := execute_tagging env ev.chat_id ev.is_reply command_text rp.1 rp.2 st1
    ⟨reset_command_state run.state, Effect.deleteMessage :: run.effects, run.pacerCalls⟩

/-- An inbound `/spam` event: sender, chat, reply flag, the numeric
capture `group(1)` (guaranteed digits by the pattern `/spam(\d+)?`,
hence modelled as a number) and text capture `group(2)`, and the outcome
of `get_reply_message()` (the replied-to message id). -/
structure SpamEvent where
  sender_id : Int
  chat_id : Int
  is_reply : Bool
  group1 : Option Nat
  group2 : Option String
  reply_fetch : Except Unit (Option Nat)

/-- The tail of `handle_spam` after the count is resolved
(handlers.py 395-427): empty-text refusal, activation
(`active_command_type := 'spam'`), reply fetch, the `execute_spam` task
and the `finally` reset. -/
def handle_spamAdmitted (count : Nat) (spam_text : String)
    (st : BotState) (ev : SpamEvent) (env : SpamEnv) : RunResult :=
  if spam_text == "" then ⟨st, [Effect.deleteMessage], 0⟩
  else
    let st1 : BotState :=
      { st with
        is_command_active := true
        stop_command := false
        active_command_type := some CommandType.spam
        current_task := some () }
    let reply_to : Option Nat :=
      if ev.is_reply then
        match ev.reply_fetch with
        | Except.ok (some mid) => some mid
        | _ => none
      else none
    let run := execute_spam env ev.chat_id count spam_text reply_to st1
    ⟨reset_command_state run.state, Effect.deleteMessage :: run.effects, run.pacerCalls⟩

/-- handlers.py `handle_spam` (344-433): admin check, admission check,
delete, strip the text, resolve the count (a supplied count greater than
`MAX_SPAM_COUNT` refuses the whole command before any state change; an
absent count falls back to `DEFAULT_SPAM_COUNT`), then
`handle_spamAdmitted`. -/
def handle_spam (admin_ids : List Int) (bot_id : Option Int)
    (default_spam_count max_spam_count : Nat)
    (st : BotState) (ev : SpamEvent) (env : SpamEnv) : RunResult :=
  if !is_admin ev.sender_id admin_ids bot_id then ⟨st, [Effect.deleteMessage], 0⟩
  else if !st.allow_parallel_commands && is_command_running st none then
    ⟨st, [Effect.deleteMessage], 0⟩
  else
    let spam_text := strStrip (ev.group2.getD "")
    match ev.group1 with
    | some c =>
      if c > max_spam_count then ⟨st, [Effect.deleteMessage], 0⟩
      else handle_spamAdmitted c spam_text st ev env
    | none => handle_spamAdmitted default_spam_count spam_text st ev env

/-! ## Concrete fixtures (used by the closed witness checks) -/

/-- The idle state: fresh `BotHandlers` in non-parallel mode. -/
def idleState : BotState := ⟨false, false, none, none, false⟩

/-- A state in which a tagging run is active (non-parallel mode). -/
def busyTagState : BotState := ⟨true, false, some CommandType.tagging, some (), false⟩

/-- A plain member with a username. -/
def alice : User := ⟨1, some "alice", some "Alice", false, false, false⟩

/-- A plain member without username or first name. -/
def bob : User := ⟨2, none, none, false, false, false⟩

/-- An executor environment that never stops, never fails and always
completes its pacer waits, over two plain members. -/
def quietTagEnv : ExecEnv :=
  ⟨[alice, bob], false, fun _ => false, fun _ => false, fun _ => false,
   fun _ => true, fun _ => false⟩

/-- A spam environment that never stops, never fails and always completes
its pacer waits. -/
def quietSpamEnv : SpamEnv :=
  ⟨fun _ => false, fun _ => false, fun _ => true, fun _ => false⟩

/-- A `/tagall` invocation by user 5 in group chat 77, no text, no reply. -/
def tagEv : TagallEvent := ⟨5, 77, true, false, none, Except.ok none⟩

/-- A `/spam hi` invocation (no count) by user 5 in chat 77. -/
def spamEvNoCount : SpamEvent := ⟨5, 77, false, none, some "hi", Except.ok none⟩

/-- A `/spam6000 x` invocation by user 5 in chat 77. -/
def spamEvBig : SpamEvent := ⟨5, 77, false, some 6000, some "x", Except.ok none⟩

/-- A `/spam3` invocation whose text strips to the empty string. -/
def spamEvEmpty : SpamEvent := ⟨5, 77, false, some 3, some "   ", Except.ok none⟩

/-- A basic command event from non-admin user 99. -/
def nonAdminEv : BasicEvent := ⟨99, 77⟩

/-- A `/tagall` invocation by non-admin user 99. -/
def tagEvNonAdmin : TagallEvent := ⟨99, 77, true, false, none, Except.ok none⟩

/-- A `/spam hi` invocation by non-admin user 99. -/
def spamEvNonAdmin : SpamEvent := ⟨99, 77, false, none, some "hi", Except.ok none⟩

/-- A basic command event from admin user 5. -/
def adminEv : BasicEvent := ⟨5, 77⟩

/-! ## Theorems: behaviour of `random_delay` -/

theorem random_delayLoop_true_iff (f : Nat → Bool) :
    ∀ n k, (random_delayLoop (some f) n k).result = true ↔
      ∀ j, j < n → f (k + j) = false := by
  intro n
  induction n with
  | zero => intro k; simp [random_delayLoop]
  | succ m ih =>
    intro k
    by_cases hf : f k
    · simp only [random_delayLoop, hf, if_true]
      constructor
      · intro h; cases h
      · intro h
        have := h 0 (Nat.succ_pos m)
        simp [hf] at this
    · have hf' : f k = false := by simpa using hf
      simp only [random_delayLoop, hf', Bool.false_eq_true, if_false]
      rw [ih (k + 1)]
      constructor
      · intro h j hj
        cases j with
        | zero => simpa using hf
        | succ i =>
          have := h i (Nat.lt_of_succ_lt_succ hj)
          simpa [Nat.add_assoc, Nat.add_comm 1 i] using this
      · intro h j hj
        have := h (j + 1) (Nat.succ_lt_succ hj)
        simpa [Nat.add_assoc, Nat.add_comm 1 j] using this

theorem random_delayLoop_all_false (f : Nat → Bool) :
    ∀ n k, (∀ j, j < n → f (k + j) = false) →
      random_delayLoop (some f) n k = ⟨true, n, n⟩ := by
  intro n
  induction n with
  | zero => intro k _; simp [random_delayLoop]
  | succ m ih =>
    intro k h
    have h0 : f k = false := by simpa using h 0 (Nat.succ_pos m)
    have hrec : random_delayLoop (some f) m (k + 1) = ⟨true, m, m⟩ := by
      apply ih
      intro j hj
      have := h (j + 1) (Nat.succ_lt_succ hj)
      simpa [Nat.add_assoc, Nat.add_comm 1 j] using this
    simp [random_delayLoop, h0, hrec]

theorem random_delayLoop_first_true (f : Nat → Bool) :
    ∀ n k j₀, j₀ < n → f (k + j₀) = true → (∀ j, j < j₀ → f (k + j) = false) →
      random_delayLoop (some f) n k = ⟨false, j₀, j₀ + 1⟩ := by
  intro n
  induction n with
  | zero => intro k j₀ h; cases h
  | succ m ih =>
    intro k j₀ hlt htrue hbefore
    cases j₀ with
    | zero =>
      have h0 : f k = true := by simpa using htrue
      simp [random_delayLoop, h0]
    | succ i =>
      have h0 : f k = false := by simpa using hbefore 0 (Nat.succ_pos i)
      have hrec : random_delayLoop (some f) m (k + 1) = ⟨false, i, i + 1⟩ := by
        apply ih (k + 1) i (Nat.lt_of_succ_lt_succ hlt)
        · simpa [Nat.add_assoc, Nat.add_comm 1 i] using htrue
        · intro j hj
          have := hbefore (j + 1) (Nat.succ_lt_succ hj)
          simpa [Nat.add_assoc, Nat.add_comm 1 j] using this
      simp [random_delayLoop, h0, hrec]

theorem random_delayLoop_polls_pos (f : Nat → Bool) (n k : Nat) (h : 1 ≤ n) :
    1 ≤ (random_delayLoop (some f) n k).polls := by
  cases n with
  | zero => cases h
  | succ m =>
    by_cases hf : f k <;> simp [random_delayLoop, hf]

theorem le_numIncrements_mul (c : ℚ) :
    c ≤ (numIncrements c : ℚ) * (1 / 10) := by
  have h1 : c * 10 ≤ ((Int.ceil (c * 10) : ℤ) : ℚ) := Int.le_ceil _
  have h2 : ((Int.ceil (c * 10) : ℤ) : ℚ) ≤ (((Int.ceil (c * 10)).toNat : ℤ) : ℚ) := by
    exact_mod_cast Int.self_le_toNat _
  have h3 : c * 10 ≤ ((numIncrements c : ℕ) : ℚ) := by
    unfold numIncrements
    push_cast at h2 ⊢
    linarith
  linarith

theorem one_le_numIncrements (c : ℚ) (h : 1 / 10 ≤ c) :
    1 ≤ numIncrements c := by
  have hpos : (0 : ℚ) < c * 10 := by linarith
  have : 0 < Int.ceil (c * 10) := Int.ceil_pos.mpr hpos
  unfold numIncrements
  omega

/-! ## Helper lemmas on the executor loops -/

theorem spamLoop_natural (env : SpamEnv) (chat : Int) (text : String) (rto : Option Nat)
    (hc : ∀ i, env.crash i = false) (hs : ∀ i, env.stopLoop i = false)
    (hf : ∀ i, env.sendFail i = false) (hp : ∀ i, env.pacerOk i = true) :
    ∀ n i, spamLoop env chat text rto n i
      = (List.replicate n (Effect.sendMessage chat text rto), n) := by
  intro n
  induction n with
  | zero => intro i; simp [spamLoop]
  | succ m ih =>
    intro i
    simp [spamLoop, hc i, hs i, hf i, hp i, ih (i + 1), List.replicate_succ]

theorem collectGo_natural (env : ExecEnv)
    (hse : ∀ i, env.stopEnum i = false) (hef : env.enumFails = false) :
    ∀ l k, collectGo env l k
      = some (l.filter fun u => !(u.bot || u.deleted || u.is_self)) := by
  intro l
  induction l with
  | nil => intro k; simp [collectGo, hef]
  | cons u rest ih =>
    intro k
    cases hb : u.bot <;> cases hd : u.deleted <;> cases hs2 : u.is_self <;>
      simp [collectGo, hse k, ih (k + 1), List.filter_cons, hb, hd, hs2]

theorem tagLoop_natural (env : ExecEnv) (chat : Int) (isr : Bool) (ct : String)
    (rm : Option String) (rmid : Option Nat)
    (hc : ∀ i, env.crash i = false) (hs : ∀ i, env.stopLoop i = false)
    (hf : ∀ i, env.sendFail i = false) (hp : ∀ i, env.pacerOk i = true) :
    ∀ l i, (tagLoop env chat isr ct rm rmid l i).1.length = l.length ∧
        (tagLoop env chat isr ct rm rmid l i).2 = l.length := by
  intro l
  induction l with
  | nil => intro i; simp [tagLoop]
  | cons u rest ih =>
    intro i
    have h1 := (ih (i + 1)).1
    have h2 := (ih (i + 1)).2
    simp [tagLoop, hc i, hs i, hf i, hp i, h1, h2]

/-! ## Claim theorems -/

/-- C1: in non-parallel mode, a `/tagall` or `/spam` command arriving
while `is_command_active` is true is rejected: the triggering message is
deleted, no messages are sent, no pacer wait happens, and the state —
in particular `active_command_type`, `stop_command` and
`is_command_active` — is unchanged. -/
theorem C1_busy_rejection (admin_ids : List Int) (bot_id : Option Int)
    (default_spam_count max_spam_count : Nat) (st : BotState)
    (tev : TagallEvent) (tenv : ExecEnv) (sev : SpamEvent) (senv : SpamEnv)
    (hpar : st.allow_parallel_commands = false)
    (hact : st.is_command_active = true) :
    handle_tagall admin_ids bot_id st tev tenv = ⟨st, [Effect.deleteMessage], 0⟩ ∧
    handle_spam admin_ids bot_id default_spam_count max_spam_count st sev senv
      = ⟨st, [Effect.deleteMessage], 0⟩ := by
  have hrun : is_command_running st none = true := by
    simp [is_command_running, hact, hpar]
  constructor
  · simp [handle_tagall, hrun, hpar]
  · simp [handle_spam, hrun, hpar]

theorem C1_witness :
    handle_tagall [(5 : Int)] none busyTagState tagEv quietTagEnv
        = ⟨busyTagState, [Effect.deleteMessage], 0⟩ ∧
    handle_spam [(5 : Int)] none 100 1000 busyTagState spamEvNoCount quietSpamEnv
        = ⟨busyTagState, [Effect.deleteMessage], 0⟩ :=
  C1_busy_rejection [5] none 100 1000 busyTagState tagEv quietTagEnv
    spamEvNoCount quietSpamEnv rfl rfl

/-- C2: in non-parallel mode every terminating executor run — natural
completion, stop flag observed, enumeration error, or an unexpected
in-loop exception (all choices of the environment oracles) — ends with
`reset_command_state` applied, leaving `is_command_active = false`,
`stop_command = false`, `active_command_type = none` and
`current_task = none`; and `reset_command_state` is idempotent and fixes
the idle state. -/
theorem C2_executor_always_resets
    (tenv : ExecEnv) (senv : SpamEnv) (chat : Int) (isr : Bool) (ct : String)
    (rm : Option String) (rmid : Option Nat) (count : Nat) (text : String)
    (rto : Option Nat) (st st2 : BotState)
    (hpar : st.allow_parallel_commands = false)
    (hpar2 : st2.allow_parallel_commands = false) :
    (execute_tagging tenv chat isr ct rm rmid st).state
        = ⟨false, false, none, none, false⟩ ∧
    (execute_spam senv chat count text rto st2).state
        = ⟨false, false, none, none, false⟩ ∧
    (∀ s : BotState,
        reset_command_state (reset_command_state s) = reset_command_state s) ∧
    (∀ s : BotState, s.is_command_active = false → s.stop_command = false →
        s.active_command_type = none → s.current_task = none →
        reset_command_state s = s) := by
  refine ⟨?_, ?_, ?_, ?_⟩
  · cases st with
    | mk a b c d e => simp_all [execute_tagging, reset_command_state]
  · cases st2 with
    | mk a b c d e => simp_all [execute_spam, reset_command_state]
  · intro s
    by_cases h : s.allow_parallel_commands <;> simp [reset_command_state, h]
  · intro s h1 h2 h3 h4
    cases s with
    | mk a b c d e => simp_all [reset_command_state]

theorem C2_witness :
    (execute_tagging quietTagEnv 77 false "" none none busyTagState).state
        = ⟨false, false, none, none, false⟩ ∧
    (execute_spam quietSpamEnv 77 3 "hi" none busyTagState).state
        = ⟨false, false, none, none, false⟩ ∧
    reset_command_state (reset_command_state busyTagState)
        = reset_command_state busyTagState ∧
    reset_command_state idleState = idleState := by
  obtain ⟨h1, h2, h3, h4⟩ := C2_executor_always_resets quietTagEnv quietSpamEnv
    77 false "" none none 3 "hi" none busyTagState busyTagState rfl rfl
  exact ⟨h1, h2, h3 busyTagState, h4 idleState rfl rfl rfl rfl⟩

/-- C9: for an admin sender, `/stoptag` and `/stopspam` (one shared
handler) set `stop_command` and delete the command message whenever a
command is active — whatever `active_command_type` is — and while idle
only delete the command message, changing no state field. -/
theorem C9_stop_alias (admin_ids : List Int) (bot_id : Option Int)
    (st : BotState) (ev : BasicEvent)
    (hadm : is_admin ev.sender_id admin_ids bot_id = true) :
    (st.is_command_active = true →
        handle_stop_command admin_ids bot_id st ev
          = ({ st with stop_command := true }, [Effect.deleteMessage])) ∧
    (st.is_command_active = false →
        handle_stop_command admin_ids bot_id st ev
          = (st, [Effect.deleteMessage])) := by
  constructor <;> intro h <;> simp [handle_stop_command, hadm, h]

theorem C9_witness :
    handle_stop_command [(5 : Int)] none busyTagState adminEv
      = ({ busyTagState with stop_command := true }, [Effect.deleteMessage]) ∧
    handle_stop_command [(5 : Int)] none idleState adminEv
      = (idleState, [Effect.deleteMessage]) :=
  ⟨(C9_stop_alias [5] none busyTagState adminEv rfl).1 rfl,
   (C9_stop_alias [5] none idleState adminEv rfl).2 rfl⟩

/-- C10: a `/spam` invocation whose text argument is missing or strips to
the empty string is refused before the controller becomes busy: only the
command message is deleted, no message is sent, no task is created, and
the state (including `is_command_active`, `stop_command`,
`active_command_type`) is unchanged. -/
theorem C10_empty_text (admin_ids : List Int) (bot_id : Option Int)
    (default_spam_count max_spam_count : Nat) (st : BotState)
    (ev : SpamEvent) (env : SpamEnv)
    (hempty : strStrip (ev.group2.getD "") = "") :
    handle_spam admin_ids bot_id default_spam_count max_spam_count st ev env
      = ⟨st, [Effect.deleteMessage], 0⟩ := by
  cases hg : ev.group1 <;>
    simp [handle_spam, handle_spamAdmitted, hempty, hg]

theorem C10_witness :
    handle_spam [(5 : Int)] none 100 1000 idleState spamEvEmpty quietSpamEnv
      = ⟨idleState, [Effect.deleteMessage], 0⟩ :=
  C10_empty_text [5] none 100 1000 idleState spamEvEmpty quietSpamEnv (by decide)

/-- C3: `random_delay` returns `False` at the first poll at which the
cancel predicate is observed true, having slept exactly the increments
before that poll and none after it; with the predicate true at entry and
a positive drawn duration it returns `False` after zero sleep
increments; and it returns `True` exactly when the predicate was never
observed true during the `numIncrements cooldown` polls, in which case
the full drawn duration elapsed (all increments slept). -/
theorem C3_cancel_respond (mn mx c : ℚ) (f : Nat → Bool) :
    (f 0 = true → 0 < numIncrements c →
        random_delay mn mx c (some f) = ⟨false, 0, 1⟩) ∧
    (∀ j₀, j₀ < numIncrements c → f j₀ = true → (∀ j, j < j₀ → f j = false) →
        random_delay mn mx c (some f) = ⟨false, j₀, j₀ + 1⟩) ∧
    ((random_delay mn mx c (some f)).result = true ↔
        ∀ j, j < numIncrements c → f j = false) ∧
    ((random_delay mn mx c (some f)).result = true →
        (random_delay mn mx c (some f)).sleeps = numIncrements c) := by
  refine ⟨?_, ?_, ?_, ?_⟩
  · intro h0 hn
    have h := random_delayLoop_first_true f (numIncrements c) 0 0 hn
      (by simpa using h0) (fun j hj => absurd hj (Nat.not_lt_zero j))
    simpa [random_delay] using h
  · intro j₀ hlt ht hb
    have h := random_delayLoop_first_true f (numIncrements c) 0 j₀ hlt
      (by simpa using ht) (fun j hj => by simpa using hb j hj)
    simpa [random_delay] using h
  · have h := random_delayLoop_true_iff f (numIncrements c) 0
    simpa [random_delay] using h
  · intro h
    have hall : ∀ j, j < numIncrements c → f (0 + j) = false := by
      have h2 := (random_delayLoop_true_iff f (numIncrements c) 0).mp
        (by simpa [random_delay] using h)
      exact h2
    have h3 := random_delayLoop_all_false f (numIncrements c) 0 hall
    simp [random_delay, h3]

theorem C3_witness :
    random_delay 0 1 (1 / 2) (some fun k => decide (2 ≤ k)) = ⟨false, 2, 3⟩ := by
  have hn : numIncrements (1 / 2) = 5 := by
    norm_num [numIncrements]
    decide
  refine (C3_cancel_respond 0 1 (1 / 2) (fun k => decide (2 ≤ k))).2.1 2 ?_ ?_ ?_
  · rw [hn]; omega
  · simp
  · intro j hj
    interval_cases j <;> simp

set_option linter.unusedVariables false in
/-- C8: for `min_delay ≤ max_delay` and a drawn duration in range, a
`random_delay` run that returns `True` has slept at least the drawn
duration (`sleeps · 0.1 ≥ cooldown ≥ min_delay`), and the cancel
predicate is evaluated at least once whenever the drawn duration is at
least one 0.1 s increment. -/
theorem C8_pacer_lower_bound (mn mx c : ℚ) (f : Nat → Bool)
    (h1 : mn ≤ mx) (h2 : mn ≤ c) (h3 : c ≤ mx) :
    ((random_delay mn mx c (some f)).result = true →
        c ≤ ((random_delay mn mx c (some f)).sleeps : ℚ) * (1 / 10) ∧
        mn ≤ ((random_delay mn mx c (some f)).sleeps : ℚ) * (1 / 10)) ∧
    (1 / 10 ≤ c → 1 ≤ (random_delay mn mx c (some f)).polls) := by
  constructor
  · intro h
    have hall := (random_delayLoop_true_iff f (numIncrements c) 0).mp
      (by simpa [random_delay] using h)
    have hfix := random_delayLoop_all_false f (numIncrements c) 0 hall
    have hs : (random_delay mn mx c (some f)).sleeps = numIncrements c := by
      simp [random_delay, hfix]
    rw [hs]
    have hle := le_numIncrements_mul c
    exact ⟨hle, le_trans h2 hle⟩
  · intro hc
    have hn := one_le_numIncrements c hc
    have h := random_delayLoop_polls_pos f (numIncrements c) 0 hn
    simpa [random_delay] using h

theorem C8_witness :
    (1 : ℚ) / 5 ≤
      ((random_delay (1 / 5) (1 / 2) (1 / 5) (some fun _ => false)).sleeps : ℚ)
        * (1 / 10) ∧
    1 ≤ (random_delay (1 / 5) (1 / 2) (1 / 5) (some fun _ => false)).polls := by
  have h := C8_pacer_lower_bound (1 / 5) (1 / 2) (1 / 5) (fun _ => false)
    (by norm_num) le_rfl (by norm_num)
  have hres : (random_delay (1 / 5) (1 / 2) (1 / 5) (some fun _ => false)).result
      = true := by
    have h2 : numIncrements (1 / 5 : ℚ) = 2 := by
      norm_num [numIncrements]
      decide
    simp only [random_delay]
    rw [h2]
    rfl
  exact ⟨(h.1 hres).2, h.2 (by norm_num)⟩

/-- C4 fails on the code: a non-admin `/ping` performs no delete at all
(handlers.py 73-78 only deletes inside the `is_admin` branch), contrary
to the claim that every privileged handler deletes the triggering
message even when the authorization check fails; `/id` and `/stats`
behave the same way. -/
theorem C4_counterexample :
    is_admin nonAdminEv.sender_id [(5 : Int)] none = false ∧
    Effect.deleteMessage ∉ (handle_ping [(5 : Int)] none idleState nonAdminEv).2 := by
  constructor
  · decide
  · decide

/-- C4 (amended): every privileged handler performs the `is_admin` check
before any side effect; on authorization failure no message is sent, no
state field changes, and no reply reveals why nothing happened;
`/tagall`, `/spam` and `/stoptag`//`/stopspam` still delete the
triggering command message, while `/ping`, `/id` and `/stats` perform no
action at all (they do not even delete the command message). -/
theorem C4_auth_gate (admin_ids : List Int) (bot_id : Option Int)
    (st : BotState) (bev : BasicEvent) (tev : TagallEvent) (sev : SpamEvent)
    (tenv : ExecEnv) (senv : SpamEnv) (default_spam_count max_spam_count : Nat)
    (h1 : is_admin bev.sender_id admin_ids bot_id = false)
    (h2 : is_admin tev.sender_id admin_ids bot_id = false)
    (h3 : is_admin sev.sender_id admin_ids bot_id = false) :
    handle_ping admin_ids bot_id st bev = (st, []) ∧
    handle_id admin_ids bot_id st bev = (st, []) ∧
    handle_stats admin_ids bot_id st bev = (st, []) ∧
    handle_stop_command admin_ids bot_id st bev = (st, [Effect.deleteMessage]) ∧
    handle_tagall admin_ids bot_id st tev tenv = ⟨st, [Effect.deleteMessage], 0⟩ ∧
    handle_spam admin_ids bot_id default_spam_count max_spam_count st sev senv
      = ⟨st, [Effect.deleteMessage], 0⟩ := by
  refine ⟨?_, ?_, ?_, ?_, ?_, ?_⟩ <;>
    simp [handle_ping, handle_id, handle_stats, handle_stop_command,
      handle_tagall, handle_spam, h1, h2, h3]

theorem C4_witness :
    handle_ping [(5 : Int)] none idleState nonAdminEv = (idleState, []) ∧
    handle_id [(5 : Int)] none idleState nonAdminEv = (idleState, []) ∧
    handle_stats [(5 : Int)] none idleState nonAdminEv = (idleState, []) ∧
    handle_stop_command [(5 : Int)] none idleState nonAdminEv
      = (idleState, [Effect.deleteMessage]) ∧
    handle_tagall [(5 : Int)] none idleState tagEvNonAdmin quietTagEnv
      = ⟨idleState, [Effect.deleteMessage], 0⟩ ∧
    handle_spam [(5 : Int)] none 100 1000 idleState spamEvNonAdmin quietSpamEnv
      = ⟨idleState, [Effect.deleteMessage], 0⟩ :=
  C4_auth_gate [5] none idleState nonAdminEv tagEvNonAdmin spamEvNonAdmin
    quietTagEnv quietSpamEnv 100 1000 (by decide) (by decide) (by decide)

/-- C5 fails on the code: both executors apply the cooldown after every
send, the last one included — a natural-completion tagging run over two
targets performs two pacer waits, not one (`N - 1`). -/
theorem C5_counterexample :
    (execute_tagging quietTagEnv 77 false "" none none idleState).pacerCalls = 2 ∧
    ¬ (execute_tagging quietTagEnv 77 false "" none none idleState).pacerCalls
        = 2 - 1 := by
  constructor
  · decide
  · decide

/-- C5 (amended): the pacer is invoked once after every target, the last
included — a natural-completion run over N targets (the filtered
participant list for tagging, `count` for spam) performs exactly N sends
and N pacer waits. -/
theorem C5_pacer_after_each (env : ExecEnv) (senv : SpamEnv) (chat : Int)
    (isr : Bool) (ct : String) (rm : Option String) (rmid : Option Nat)
    (st st2 : BotState) (count : Nat) (text : String) (rto : Option Nat)
    (hse : ∀ i, env.stopEnum i = false) (hef : env.enumFails = false)
    (hsl : ∀ i, env.stopLoop i = false) (hsf : ∀ i, env.sendFail i = false)
    (hpo : ∀ i, env.pacerOk i = true) (hcr : ∀ i, env.crash i = false)
    (hsl2 : ∀ i, senv.stopLoop i = false) (hsf2 : ∀ i, senv.sendFail i = false)
    (hpo2 : ∀ i, senv.pacerOk i = true) (hcr2 : ∀ i, senv.crash i = false) :
    (execute_tagging env chat isr ct rm rmid st).pacerCalls
      = (env.participants.filter fun u => !(u.bot || u.deleted || u.is_self)).length ∧
    (execute_tagging env chat isr ct rm rmid st).effects.length
      = (env.participants.filter fun u => !(u.bot || u.deleted || u.is_self)).length ∧
    (execute_spam senv chat count text rto st2).pacerCalls = count ∧
    (execute_spam senv chat count text rto st2).effects.length = count := by
  have key : collectParticipants env
      = some (env.participants.filter fun u => !(u.bot || u.deleted || u.is_self)) :=
    collectGo_natural env hse hef env.participants 0
  have htl := tagLoop_natural env chat isr ct rm rmid hcr hsl hsf hpo
  have hsp := spamLoop_natural senv chat text rto hcr2 hsl2 hsf2 hpo2 count 0
  generalize hl : env.participants.filter (fun u => !(u.bot || u.deleted || u.is_self)) = l at key ⊢
  cases l with
  | nil =>
    refine ⟨?_, ?_, ?_, ?_⟩ <;>
      simp [execute_tagging, execute_spam, key, tagLoop, hsp]
  | cons u rest =>
    have hl1 := (htl (u :: rest) 0).1
    have hl2 := (htl (u :: rest) 0).2
    refine ⟨?_, ?_, ?_, ?_⟩ <;>
      simp [execute_tagging, execute_spam, key, hsp, hl1, hl2]

theorem C5_witness :
    (execute_tagging quietTagEnv 77 false "" none none idleState).effects.length = 2 ∧
    (execute_spam quietSpamEnv 77 3 "x" none idleState).pacerCalls = 3 ∧
    (execute_spam quietSpamEnv 77 3 "x" none idleState).effects.length = 3 := by
  have h := C5_pacer_after_each quietTagEnv quietSpamEnv 77 false "" none none
    idleState idleState 3 "x" none (fun i => rfl) rfl (by intro i; rfl)
    (fun i => rfl) (by exact fun i => rfl) (by intro i; rfl)
    (fun i => rfl) (by intro i; rfl) (by exact fun i => rfl) (fun i => rfl)
  refine ⟨?_, h.2.2.1, h.2.2.2⟩
  rw [h.2.1]
  decide

/-- C6: the Tag-All message body is exactly the five-case function of
(reply text contains `{mention}`, is-reply, has-argument) stated by the
specification (`claimTagSend`, including the documented mention shapes),
provided the reply fetch succeeds exactly when the command is a reply
and that username / first name use `none` (not `some ""`) for absence. -/
theorem C6_message_selection (isr : Bool) (ct : String) (rm : Option String)
    (rmid : Option Nat) (u : User)
    (h1 : rm.isSome = isr) (h2 : rmid.isSome = isr)
    (h3 : u.username ≠ some "") (h4 : u.first_name ≠ some "") :
    buildTagSend isr ct rm rmid u = claimTagSend isr ct rm rmid u := by
  have hm : mention_of u =
      (match u.username with
       | some s => "@" ++ s
       | none => "[" ++ u.first_name.getD "User" ++ "](tg://user?id="
           ++ toString u.id ++ ")") := by
    cases hu : u.username with
    | some s =>
      have hs : s ≠ "" := fun hcontra => h3 (by rw [hu, hcontra])
      simp [mention_of, strTruthy, hu, hs]
    | none =>
      cases hf : u.first_name with
      | some n =>
        have hn : n ≠ "" := fun hcontra => h4 (by rw [hf, hcontra])
        simp [mention_of, strTruthy, hu, hf, hn]
      | none => simp [mention_of, strTruthy, hu, hf]
  cases isr with
  | false =>
    have hrm : rm = none := by cases rm <;> simp_all
    have hid : rmid = none := by cases rmid <;> simp_all
    subst hrm hid
    simp [buildTagSend, claimTagSend, strTruthy, hm]
  | true =>
    obtain ⟨rt, hrt⟩ := Option.isSome_iff_exists.mp h1
    obtain ⟨mid, hmid⟩ := Option.isSome_iff_exists.mp h2
    subst hrt hmid
    by_cases hempty : rt = ""
    · subst hempty
      have hcont : strContains "" "{mention}" = false := by decide
      simp [buildTagSend, claimTagSend, strTruthy, hm, hcont]
    · have htr : strTruthy (some rt) = true := by simp [strTruthy, hempty]
      simp [buildTagSend, claimTagSend, htr, hm, hempty]

theorem C6_witness :
    buildTagSend true "hello" (some "please {mention} read") (some 3) alice
      = claimTagSend true "hello" (some "please {mention} read") (some 3) alice :=
  C6_message_selection true "hello" (some "please {mention} read") (some 3) alice
    rfl rfl (by decide) (by decide)

/-- C7: a `/spam` whose supplied count exceeds `MAX_SPAM_COUNT` is
refused before it starts — only the command-message delete happens, the
state is untouched, nothing is sent (no clamping down); and when no
count is supplied the run uses `DEFAULT_SPAM_COUNT`: an unhindered run
sends exactly that many copies of the text. -/
theorem C7_count_policy (admin_ids : List Int) (bot_id : Option Int)
    (default_spam_count max_spam_count : Nat) (st : BotState)
    (ev : SpamEvent) (env : SpamEnv) (c : Nat) (t : String) :
    (ev.group1 = some c → c > max_spam_count →
        handle_spam admin_ids bot_id default_spam_count max_spam_count st ev env
          = ⟨st, [Effect.deleteMessage], 0⟩) ∧
    (is_admin ev.sender_id admin_ids bot_id = true →
     st.is_command_active = false →
     ev.group1 = none → ev.group2 = some t → strStrip t ≠ "" →
     ev.is_reply = false →
     (∀ i, env.crash i = false) → (∀ i, env.stopLoop i = false) →
     (∀ i, env.sendFail i = false) → (∀ i, env.pacerOk i = true) →
     (handle_spam admin_ids bot_id default_spam_count max_spam_count st ev env).effects
        = Effect.deleteMessage ::
            List.replicate default_spam_count
              (Effect.sendMessage ev.chat_id (strStrip t) none)) := by
  constructor
  · intro hg hgt
    simp [handle_spam, hg, hgt]
  · intro hadm hidle hg1 hg2 hne hrep hc hs hf hp
    have hrun : is_command_running st none = false := by
      simp [is_command_running, hidle]
    have hsp := spamLoop_natural env ev.chat_id (strStrip t) none hc hs hf hp
      default_spam_count 0
    have hbeq : (strStrip t == "") = false := beq_eq_false_iff_ne.mpr hne
    simp [handle_spam, handle_spamAdmitted, hadm, hrun, hg1, hg2, hrep, hbeq,
      execute_spam, hsp]

theorem C7_witness :
    handle_spam [(5 : Int)] none 100 1000 idleState spamEvBig quietSpamEnv
      = ⟨idleState, [Effect.deleteMessage], 0⟩ ∧
    (handle_spam [(5 : Int)] none 2 1000 idleState spamEvNoCount quietSpamEnv).effects
      = Effect.deleteMessage :: List.replicate 2 (Effect.sendMessage 77 "hi" none) := by
  constructor
  · exact (C7_count_policy [5] none 100 1000 idleState spamEvBig quietSpamEnv
      6000 "x").1 rfl (by decide)
  · have h := (C7_count_policy [5] none 2 1000 idleState spamEvNoCount quietSpamEnv
      0 "hi").2 (by decide) rfl rfl rfl (by decide) rfl
      (fun i => rfl) (by intro i; rfl) (fun i => rfl) (by exact fun i => rfl)
    have hs : strStrip "hi" = "hi" := by decide
    rw [hs] at h
    exact h

end Userbot
